import Mathlib

/-!
Verification of the HTTP request-processing pipeline of `src/backend/server.js`
(Express composition root of the shop_web repository).

The pipeline is embedded shallowly: each middleware stage and route handler of
the source file becomes a Lean definition, and the claims of the specification
are settled as theorems about `processRequest`.  External npm dependencies
(helmet, express-rate-limit, cors, body-parser) and the JavaScript runtime
builtin Date.toISOString are not part of the repository source; they are
modelled from the contracts the specification states for them, as noted on the
corresponding definitions.
-/

namespace ShopWeb

/-! ## Compiled-in constants (server.js lines 35-65) -/

/-- windowMs of the rate limiter: 15 minutes in milliseconds (server.js line 36). -/
def windowMs : Nat := 15 * 60 * 1000

/-- max requests per window per client (server.js line 37). -/
def maxRequests : Nat := 100

/-- body size ceiling, the 10mb limit of bodyParser (server.js lines 51-52). -/
def bodyLimit : Nat := 10 * 1024 * 1024

/-- CORS origin allow-list (server.js line 46). -/
def allowedOrigins : List String :=
  ["http://localhost:3000", "http://127.0.0.1:3000",
   "http://localhost:8000", "http://127.0.0.1:8000"]

/-- mounted API path groups (server.js lines 58-65). -/
def apiPrefixList : List String :=
  ["/api/auth", "/api/orders", "/api/products", "/api/users",
   "/api/admin", "/api/apk", "/api/creditcards", "/api/sync"]

/-! ## Calendar model for Date.toISOString

Modelled from the spec: the health handler (server.js line 111) calls the
JavaScript builtin new Date().toISOString(), which is not repository code; the
spec describes the field as an ISO-8601 string with a freshly generated
timestamp per call.  The builtin renders the clock time, in milliseconds since
the Unix epoch, as YYYY-MM-DDTHH:MM:SS.mmmZ in the proleptic Gregorian
calendar (UTC). -/

/-- Gregorian leap-year test. -/
def isLeapYear (y : Nat) : Bool :=
  (y % 4 == 0 && y % 100 != 0) || (y % 400 == 0)

/-- number of days of year y. -/
def daysInYear (y : Nat) : Nat := if isLeapYear y then 366 else 365

/-- total days of the n years starting at year y0. -/
def daysBetween (y0 : Nat) : Nat → Nat
  | 0 => 0
  | n + 1 => daysInYear y0 + daysBetween (y0 + 1) n

/-- fuel-driven year search: starting at year y, walk forward consuming whole
years from the day count d; returns the year reached and the remaining day of
year.  The fuel only bounds the recursion; `yearOf` supplies enough of it. -/
def yearOfAux : Nat → Nat → Nat → Nat × Nat
  | 0, y, d => (y, d)
  | fuel + 1, y, d =>
      if d < daysInYear y then (y, d) else yearOfAux fuel (y + 1) (d - daysInYear y)

/-- year and zero-based day-of-year of a day count relative to 1970-01-01. -/
def yearOf (d : Nat) : Nat × Nat := yearOfAux d 1970 d

/-- month lengths, January first. -/
def monthLengths (leap : Bool) : List Nat :=
  [31, if leap then 29 else 28, 31, 30, 31, 30, 31, 31, 30, 31, 30, 31]

/-- walk the month-length list consuming whole months from a zero-based day of
year; returns the (1-based) month and (1-based) day of month. -/
def mdAux : List Nat → Nat → Nat → Nat × Nat
  | [], m, d => (m, d + 1)
  | len :: rest, m, d => if d < len then (m, d + 1) else mdAux rest (m + 1) (d - len)

/-- month and day of month of a zero-based day of year. -/
def monthDayOf (leap : Bool) (doy : Nat) : Nat × Nat := mdAux (monthLengths leap) 1 doy

/-- the seven calendar fields (year, month, day, hour, minute, second,
millisecond) of a millisecond-since-epoch clock value. -/
def isoFields (t : Nat) : Nat × Nat × Nat × Nat × Nat × Nat × Nat :=
  let d := t / 86400000
  let r := t % 86400000
  let yd := yearOf d
  let md := monthDayOf (isLeapYear yd.1) yd.2
  (yd.1, md.1, md.2, r / 3600000, r % 3600000 / 60000, r % 60000 / 1000, r % 1000)

/-- the decimal digit character of n (for n at most 9). -/
def digitChar : Nat → Char
  | 0 => '0' | 1 => '1' | 2 => '2' | 3 => '3' | 4 => '4'
  | 5 => '5' | 6 => '6' | 7 => '7' | 8 => '8' | _ => '9'

/-- one-digit zero-padded decimal rendering. -/
def pad1 (n : Nat) : List Char := [digitChar (n % 10)]

/-- two-digit zero-padded decimal rendering. -/
def pad2 (n : Nat) : List Char := digitChar (n / 10 % 10) :: pad1 (n % 10)

/-- three-digit zero-padded decimal rendering. -/
def pad3 (n : Nat) : List Char := digitChar (n / 100 % 10) :: pad2 (n % 100)

/-- four-digit zero-padded decimal rendering. -/
def pad4 (n : Nat) : List Char := digitChar (n / 1000 % 10) :: pad3 (n % 1000)

/-- character list of the ISO rendering of the seven calendar fields. -/
def renderIso (y mo dy h mi s ms : Nat) : List Char :=
  pad4 y ++ '-' :: (pad2 mo ++ '-' :: (pad2 dy ++ 'T' :: (pad2 h ++ ':' ::
    (pad2 mi ++ ':' :: (pad2 s ++ '.' :: (pad3 ms ++ ['Z']))))))

/-- model of Date.toISOString on a millisecond clock value. -/
def toISOString (t : Nat) : String :=
  match isoFields t with
  | (y, mo, dy, h, mi, s, ms) => String.mk (renderIso y mo dy h mi s ms)

/-- a clock bound (day 2930585 after the epoch, falling in the year 9993)
under which the rendered year certainly stays four digits long; the builtin
switches to an expanded-year form at year 10000, which breaks the
lexicographic ordering of the rendered strings. -/
def isoLimit : Nat := 2930585 * 86400000

/-! ## Requests and responses -/

/-- raw request body as seen by the body decoder.  The JSON well-formedness
flag models the outcome of the external JSON parse, which is not repository
code (spec: malformed JSON fails with a bad-request error). -/
inductive RawBody
  | empty
  | jsonBody (wellFormed : Bool) (size : Nat)
  | urlencodedBody (size : Nat)
deriving DecidableEq

/-- the request context of the pipeline: method, path, Origin header, the
remaining headers, raw body and client identity (source address). -/
structure Request where
  method : String
  path : String
  origin : Option String
  headers : List (String × String)
  rawBody : RawBody
  clientIp : String
deriving DecidableEq

/-- response bodies distinguished by how the source produces them: a flat JSON
object with string values, a document served from disk, plain text, or an
empty body (redirects). -/
inductive ResBody
  | json (fields : List (String × String))
  | file (relPath : String)
  | text (s : String)
  | empty
deriving DecidableEq

/-- an HTTP response: status, headers and body. -/
structure Response where
  status : Nat
  headers : List (String × String)
  body : ResBody
deriving DecidableEq

/-- first value of a response header, if present. -/
def getHeader (r : Response) (k : String) : Option String :=
  (r.headers.find? (fun p => p.1 == k)).map (fun p => p.2)

/-- value of a field of a JSON response body, if present. -/
def jsonField (r : Response) (k : String) : Option String :=
  match r.body with
  | ResBody.json fields => (fields.find? (fun p => p.1 == k)).map (fun p => p.2)
  | _ => none

/-! ## Pipeline stages -/

/-- the stages of the request pipeline, in the registration order of
server.js lines 30-131. -/
inductive Stage
  | securityHeaders
  | rateLimiter
  | logger
  | corsPolicy
  | bodyDecoder
  | staticFiles
  | apiMount
  | pageRoutes
  | healthCheck
  | errorMiddleware
  | notFoundHandler
deriving DecidableEq

/-- registration index of each stage. -/
def stageIndex : Stage → Nat
  | Stage.securityHeaders => 0
  | Stage.rateLimiter => 1
  | Stage.logger => 2
  | Stage.corsPolicy => 3
  | Stage.bodyDecoder => 4
  | Stage.staticFiles => 5
  | Stage.apiMount => 6
  | Stage.pageRoutes => 7
  | Stage.healthCheck => 8
  | Stage.errorMiddleware => 9
  | Stage.notFoundHandler => 10

/-- the five middleware stages every forwarded request passes through before
route matching (server.js lines 30-52). -/
def chain5 : List Stage :=
  [Stage.securityHeaders, Stage.rateLimiter, Stage.logger,
   Stage.corsPolicy, Stage.bodyDecoder]

/-! ## Security headers (helmet)

Modelled from the spec: helmet is an external dependency; the spec says the
stage applies a fixed set of protective response headers with
content-security-policy enforcement explicitly disabled (server.js lines
30-32). -/

/-- fixed protective headers added to every response; no
Content-Security-Policy header, as it is disabled in the configuration. -/
def helmetHeaders : List (String × String) :=
  [("X-DNS-Prefetch-Control", "off"),
   ("X-Frame-Options", "SAMEORIGIN"),
   ("Strict-Transport-Security", "max-age=15552000; includeSubDomains"),
   ("X-Download-Options", "noopen"),
   ("X-Content-Type-Options", "nosniff"),
   ("X-XSS-Protection", "0")]

/-! ## Rate limiter

Modelled from the spec (section 4.2): express-rate-limit is an external
dependency; the spec contract tracks, per client identity, a counter and a
window start; an expired window resets the counter; the counter is then
incremented and the request is rejected exactly when the counter exceeds the
maximum.  The configuration (15 minutes, 100 requests) is repository code
(server.js lines 35-39). -/

/-- per-client limiter state: client identity mapped to (count, windowStart). -/
def LimiterState : Type := List (String × (Nat × Nat))

/-- entry of a client in the limiter state. -/
def limiterLookup (st : LimiterState) (ip : String) : Option (Nat × Nat) :=
  match st with
  | [] => none
  | (k, v) :: rest => if k = ip then some v else limiterLookup rest ip

/-- replace or create the entry of a client. -/
def limiterUpdate (st : LimiterState) (ip : String) (v : Nat × Nat) : LimiterState :=
  match st with
  | [] => [(ip, v)]
  | (k, w) :: rest =>
      if k = ip then (ip, v) :: rest else (k, w) :: limiterUpdate rest ip v

/-- one limiter step: reset the window of the client if it has elapsed,
increment its counter and decide whether the request may proceed. -/
def limiterCheck (now : Nat) (st : LimiterState) (ip : String) : Bool × LimiterState :=
  let cur : Nat × Nat :=
    match limiterLookup st ip with
    | none => (0, now)
    | some (c, s) => if s + windowMs ≤ now then (0, now) else (c, s)
  let c1 := cur.1 + 1
  (decide (c1 ≤ maxRequests), limiterUpdate st ip (c1, cur.2))

/-- body of the rate-limit rejection. -/
def tooManyMsg : String := "Too many requests, please try again later."

/-! ## CORS policy

Modelled from the spec (section 4.3): the cors package is an external
dependency; the spec contract permits credentialed cross-origin calls exactly
when the Origin header matches an allow-list entry verbatim, omits the
permission headers otherwise, and always lets the server continue processing
the request.  The allow-list and the credentials flag are repository code
(server.js lines 45-48). -/

/-- headers contributed by the CORS stage. -/
def corsHeaders (origin : Option String) : List (String × String) :=
  match origin with
  | none => []
  | some o =>
      if o ∈ allowedOrigins then
        [("Access-Control-Allow-Origin", o),
         ("Access-Control-Allow-Credentials", "true"),
         ("Vary", "Origin")]
      else [("Vary", "Origin")]

/-! ## Body decoder

Modelled from the spec (section 4.4): body-parser is an external dependency;
the spec contract rejects bodies over the 10 MB ceiling with a
payload-too-large error and malformed JSON with a bad-request error, passing
the error down the pipeline (where the error middleware of server.js lines
117-123 catches it). -/

/-- an error travelling down the pipeline, as produced by a stage or thrown by
a handler. -/
structure PipeError where
  status : Nat
  message : String
deriving DecidableEq

/-- outcome of the body-decoding stage: an error, or none when the body was
accepted. -/
def decodeBody : RawBody → Option PipeError
  | RawBody.empty => none
  | RawBody.jsonBody wellFormed size =>
      if bodyLimit < size then some { status := 413, message := "request entity too large" }
      else if wellFormed then none
      else some { status := 400, message := "Unexpected token in JSON" }
  | RawBody.urlencodedBody size =>
      if bodyLimit < size then some { status := 413, message := "request entity too large" }
      else none

/-! ## Route dispatch (server.js lines 55-114) -/

/-- does a character list start with another. -/
def listStarts : List Char → List Char → Bool
  | [], _ => true
  | _ :: _, [] => false
  | a :: as, b :: bs => a == b && listStarts as bs

/-- does a string start with the given lead string. -/
def strStarts (lead s : String) : Bool := listStarts lead.data s.data

/-- Express mount matching: the path equals the mount path or continues it
after a slash (server.js lines 58-65). -/
def mountMatches (mnt p : String) : Bool := p == mnt || strStarts (mnt ++ "/") p

/-- Express exact-route matching with the default non-strict trailing slash. -/
def expressPathMatch (pat p : String) : Bool :=
  p == pat || p == pat ++ "/" || p ++ "/" == pat

/-- route methods registered with app.get match GET requests and, through the
Express router fallback, HEAD requests. -/
def isGetLike (m : String) : Bool := m == "GET" || m == "HEAD"

/-- a 200 response serving a document from disk. -/
def fileRes (p : String) : Response := { status := 200, headers := [], body := ResBody.file p }

/-- the res.redirect response: status 302 with a Location header and no
document content (server.js lines 73-75). -/
def redirectRes (loc : String) : Response :=
  { status := 302, headers := [("Location", loc)], body := ResBody.empty }

/-- the page-route table of server.js lines 68-104, in registration order. -/
def pageRouteTable : List (String × Response) :=
  [("/", fileRes "index.html"),
   ("/start", redirectRes "/launcher"),
   ("/launcher", fileRes "launcher.html"),
   ("/admin", fileRes "admin/login.html"),
   ("/admin/", fileRes "admin/login.html"),
   ("/admin/login.html", fileRes "admin/login.html"),
   ("/admin/dashboard", fileRes "admin/index.html"),
   ("/order-confirmation", fileRes "order-confirmation.html")]

/-- the exact paths bound by page routes. -/
def pagePaths : List String := pageRouteTable.map (fun e => e.1)

/-- first page route whose pattern matches the path. -/
def findPageRoute (p : String) : Option Response :=
  (pageRouteTable.find? (fun e => expressPathMatch e.1 p)).map (fun e => e.2)

/-- the health-check response of server.js lines 107-114; the timestamp is
generated from the clock value of the call. -/
def healthResponse (now : Nat) : Response :=
  { status := 200, headers := [],
    body := ResBody.json
      [("status", "OK"),
       ("message", "ShoppingDmart Backend is running"),
       ("timestamp", toISOString now),
       ("version", "1.0.0")] }

/-- the error middleware of server.js lines 117-123: every caught error
becomes a 500 response whose message is the raw error message when NODE_ENV
is development and a generic message in every other configuration. -/
def errorResponse (nodeEnv : Option String) (err : PipeError) : Response :=
  { status := 500, headers := [],
    body := ResBody.json
      [("error", "Something went wrong!"),
       ("message", if nodeEnv = some "development" then err.message else "Internal server error")] }

/-- the 404 handler of server.js lines 126-131. -/
def notFoundResponse (req : Request) : Response :=
  { status := 404, headers := [],
    body := ResBody.json
      [("error", "Route not found"),
       ("message", "Cannot " ++ req.method ++ " " ++ req.path)] }

/-- outcome of a mounted API route group on a request it was delegated: a
response, a fall-through to the later stages, or a thrown error.  The groups
themselves are external collaborators (spec sections 1 and 6). -/
inductive ApiOutcome
  | respond (r : Response)
  | fallthrough
  | throwErr (msg : String)

/-- the deployment environment of the pipeline: which files exist under the
static root, the NODE_ENV variable, and the behaviour of the external API
route groups. -/
structure Env where
  staticFiles : List String
  nodeEnv : Option String
  apiHandle : String → Request → ApiOutcome

/-- route dispatch after the middleware chain: static files first (GET-like
methods only), then the API mounts in order, then the page routes, the health
check and finally the 404 handler; a thrown error diverts to the error
middleware.  Returns the response and the stages entered. -/
def pageDispatch (now : Nat) (req : Request) : Response × List Stage :=
  if isGetLike req.method then
    match findPageRoute req.path with
    | some r => (r, [Stage.pageRoutes])
    | none =>
        if expressPathMatch "/api/health" req.path then
          (healthResponse now, [Stage.healthCheck])
        else (notFoundResponse req, [Stage.notFoundHandler])
  else (notFoundResponse req, [Stage.notFoundHandler])

/-- dispatch of a request that passed the body decoder. -/
def dispatchAfterBody (env : Env) (now : Nat) (req : Request) : Response × List Stage :=
  if isGetLike req.method && env.staticFiles.contains req.path then
    (fileRes req.path, [Stage.staticFiles])
  else
    match apiPrefixList.find? (fun mnt => mountMatches mnt req.path) with
    | some mnt =>
        match env.apiHandle mnt req with
        | ApiOutcome.respond r => (r, [Stage.staticFiles, Stage.apiMount])
        | ApiOutcome.throwErr msg =>
            (errorResponse env.nodeEnv { status := 500, message := msg },
             [Stage.staticFiles, Stage.apiMount, Stage.errorMiddleware])
        | ApiOutcome.fallthrough =>
            let pr := pageDispatch now req
            (pr.1, Stage.staticFiles :: Stage.apiMount :: pr.2)
    | none =>
        let pr := pageDispatch now req
        (pr.1, Stage.staticFiles :: pr.2)

/-- headers added by the middleware chain to every forwarded request. -/
def pipelineHeaders (req : Request) : List (String × String) :=
  helmetHeaders ++ corsHeaders req.origin

/-- prepend the middleware headers to a response. -/
def withHeaders (hs : List (String × String)) (r : Response) : Response :=
  { r with headers := hs ++ r.headers }

/-- result of processing one request: the response, the stages entered in
order, and the limiter state left behind. -/
structure Outcome where
  response : Response
  trace : List Stage
  limiter : LimiterState

/-- the whole pipeline of server.js on one request: security headers, rate
limiter, access logger, CORS, body decoder, then dispatch; limiter rejections
stop the pipeline with a 429, body-decoding errors divert to the error
middleware. -/
def processRequest (env : Env) (st : LimiterState) (now : Nat) (req : Request) : Outcome :=
  let chk := limiterCheck now st req.clientIp
  if chk.1 then
    match decodeBody req.rawBody with
    | some err =>
        { response := withHeaders (pipelineHeaders req) (errorResponse env.nodeEnv err),
          trace := chain5 ++ [Stage.errorMiddleware],
          limiter := chk.2 }
    | none =>
        let dr := dispatchAfterBody env now req
        { response := withHeaders (pipelineHeaders req) dr.1,
          trace := chain5 ++ dr.2,
          limiter := chk.2 }
  else
    { response := { status := 429, headers := helmetHeaders, body := ResBody.text tooManyMsg },
      trace := [Stage.securityHeaders, Stage.rateLimiter],
      limiter := chk.2 }

/-- responses of a sequence of timed requests, threading the limiter state. -/
def runSeq (env : Env) (st : LimiterState) : List (Nat × Request) → List Outcome
  | [] => []
  | (t, r) :: rest =>
      let o := processRequest env st t r
      o :: runSeq env o.limiter rest

/-- limiter state after a sequence of timed requests. -/
def runSeqState (env : Env) (st : LimiterState) : List (Nat × Request) → LimiterState
  | [] => st
  | (t, r) :: rest => runSeqState env (processRequest env st t r).limiter rest

/-! ## Concrete deployments and requests used to instantiate the theorems -/

/-- a deployment with no static files, no NODE_ENV and API groups that always
fall through. -/
def cEnv : Env :=
  { staticFiles := [], nodeEnv := none, apiHandle := fun _ _ => ApiOutcome.fallthrough }

/-- a deployment with NODE_ENV test whose API groups always throw. -/
def cEnvTest : Env :=
  { staticFiles := [], nodeEnv := some "test", apiHandle := fun _ _ => ApiOutcome.throwErr "boom" }

/-- a deployment with NODE_ENV development whose API groups always throw. -/
def cEnvDev : Env :=
  { staticFiles := [], nodeEnv := some "development",
    apiHandle := fun _ _ => ApiOutcome.throwErr "boom" }

/-- a minimal request with the given method and path. -/
def cReq (m p : String) : Request :=
  { method := m, path := p, origin := none, headers := [],
    rawBody := RawBody.empty, clientIp := "203.0.113.7" }

/-! ## General pipeline lemmas -/

theorem processRequest_forwarded (env : Env) (st : LimiterState) (now : Nat) (req : Request)
    (h : (limiterCheck now st req.clientIp).1 = true) (hd : decodeBody req.rawBody = none) :
    processRequest env st now req =
      { response := withHeaders (pipelineHeaders req) (dispatchAfterBody env now req).1,
        trace := chain5 ++ (dispatchAfterBody env now req).2,
        limiter := (limiterCheck now st req.clientIp).2 } := by
  simp only [processRequest, h, hd, if_true]

theorem processRequest_bodyError (env : Env) (st : LimiterState) (now : Nat) (req : Request)
    (err : PipeError)
    (h : (limiterCheck now st req.clientIp).1 = true)
    (hd : decodeBody req.rawBody = some err) :
    processRequest env st now req =
      { response := withHeaders (pipelineHeaders req) (errorResponse env.nodeEnv err),
        trace := chain5 ++ [Stage.errorMiddleware],
        limiter := (limiterCheck now st req.clientIp).2 } := by
  simp only [processRequest, h, hd, if_true]

theorem processRequest_rejected (env : Env) (st : LimiterState) (now : Nat) (req : Request)
    (h : (limiterCheck now st req.clientIp).1 = false) :
    processRequest env st now req =
      { response := { status := 429, headers := helmetHeaders, body := ResBody.text tooManyMsg },
        trace := [Stage.securityHeaders, Stage.rateLimiter],
        limiter := (limiterCheck now st req.clientIp).2 } := by
  simp only [processRequest, h, Bool.false_eq_true, if_false]

theorem dispatch_page (env : Env) (now : Nat) (req : Request) (r : Response)
    (hm : isGetLike req.method = true)
    (hs : env.staticFiles.contains req.path = false)
    (hmnt : apiPrefixList.find? (fun mnt => mountMatches mnt req.path) = none)
    (hpg : findPageRoute req.path = some r) :
    dispatchAfterBody env now req = (r, [Stage.staticFiles, Stage.pageRoutes]) := by
  simp only [dispatchAfterBody, hm, hs, Bool.and_false, Bool.false_eq_true, if_false,
    hmnt, pageDispatch, if_true, hpg]

theorem dispatch_notFound_aux (env : Env) (now : Nat) (req : Request)
    (hs : (isGetLike req.method && env.staticFiles.contains req.path) = false)
    (hmnt : apiPrefixList.find? (fun mnt => mountMatches mnt req.path) = none)
    (hpg : findPageRoute req.path = none)
    (hh : (isGetLike req.method && expressPathMatch "/api/health" req.path) = false) :
    dispatchAfterBody env now req = (notFoundResponse req, [Stage.staticFiles, Stage.notFoundHandler]) := by
  simp only [dispatchAfterBody, hs, Bool.false_eq_true, if_false, hmnt, pageDispatch]
  rcases hg : isGetLike req.method with _ | _
  · simp only [Bool.false_eq_true, if_false]
  · rw [hg] at hh
    simp only [Bool.true_and] at hh
    simp only [if_true, hpg, hh, Bool.false_eq_true, if_false]

theorem withHeaders_status (hs : List (String × String)) (r : Response) :
    (withHeaders hs r).status = r.status := rfl

theorem withHeaders_body (hs : List (String × String)) (r : Response) :
    (withHeaders hs r).body = r.body := rfl

theorem getHeader_withHeaders (hs : List (String × String)) (r : Response) (k : String)
    (h : hs.find? (fun p => p.1 == k) = none) :
    getHeader (withHeaders hs r) k = getHeader r k := by
  simp only [getHeader, withHeaders, List.find?_append, h, Option.none_or]

theorem pipelineHeaders_no_location (req : Request) :
    (pipelineHeaders req).find? (fun p => p.1 == "Location") = none := by
  simp only [pipelineHeaders, List.find?_append]
  have h1 : helmetHeaders.find? (fun p => p.1 == "Location") = none := by decide
  have h2 : (corsHeaders req.origin).find? (fun p => p.1 == "Location") = none := by
    rcases req.origin with _ | o
    · rfl
    · simp only [corsHeaders]
      split <;> rfl
  simp [h1, h2]

/-- C7 helper: the page route of /start is registered as a redirect. -/
theorem findPageRoute_start : findPageRoute "/start" = some (redirectRes "/launcher") := by decide

/-- C9 helper: the page route of /admin/dashboard serves the dashboard document. -/
theorem findPageRoute_dashboard : findPageRoute "/admin/dashboard" = some (fileRes "admin/index.html") := by
  decide

/-- no API mount matches /start. -/
theorem mounts_none_start : apiPrefixList.find? (fun mnt => mountMatches mnt "/start") = none := by
  decide

/-- no API mount matches /admin/dashboard. -/
theorem mounts_none_dashboard :
    apiPrefixList.find? (fun mnt => mountMatches mnt "/admin/dashboard") = none := by decide

/-- C7: every GET request to /start that passes the rate limiter and the body
decoder, and that no static file shadows, is answered with status 302, a
Location header targeting exactly /launcher, and no document content. -/
theorem c7_start_redirect (env : Env) (st : LimiterState) (now : Nat) (req : Request)
    (hm : req.method = "GET") (hp : req.path = "/start")
    (hl : (limiterCheck now st req.clientIp).1 = true)
    (hb : decodeBody req.rawBody = none)
    (hs : env.staticFiles.contains req.path = false) :
    (processRequest env st now req).response.status = 302 ∧
    getHeader (processRequest env st now req).response "Location" = some "/launcher" ∧
    (processRequest env st now req).response.body = ResBody.empty := by
  have hd : dispatchAfterBody env now req = (redirectRes "/launcher", [Stage.staticFiles, Stage.pageRoutes]) := by
    apply dispatch_page
    · rw [hm]; rfl
    · exact hs
    · rw [hp]; exact mounts_none_start
    · rw [hp]; exact findPageRoute_start
  rw [processRequest_forwarded env st now req hl hb, hd]
  refine ⟨rfl, ?_, rfl⟩
  rw [getHeader_withHeaders _ _ _ (pipelineHeaders_no_location req)]
  rfl

/-- C7 witness: the theorem applied to a fresh GET /start request. -/
theorem c7_start_redirect_witness :
    (processRequest cEnv [] 44 (cReq "GET" "/start")).response.status = 302 ∧
    getHeader (processRequest cEnv [] 44 (cReq "GET" "/start")).response "Location" = some "/launcher" ∧
    (processRequest cEnv [] 44 (cReq "GET" "/start")).response.body = ResBody.empty :=
  c7_start_redirect cEnv [] 44 (cReq "GET" "/start") rfl rfl (by decide) rfl rfl

/-- C9: a GET request to /admin/dashboard carrying any headers whatsoever, in
particular none (no credentials of any kind), that passes the rate limiter
and body decoder and that no static file shadows, is answered with status 200
and the admin dashboard document, never with 401 or 403: the route performs
no server-side authorization check. -/
theorem c9_admin_dashboard_unprotected (env : Env) (st : LimiterState) (now : Nat) (req : Request)
    (hm : req.method = "GET") (hp : req.path = "/admin/dashboard")
    (hl : (limiterCheck now st req.clientIp).1 = true)
    (hb : decodeBody req.rawBody = none)
    (hs : env.staticFiles.contains req.path = false) :
    (processRequest env st now req).response.status = 200 ∧
    (processRequest env st now req).response.body = ResBody.file "admin/index.html" ∧
    (processRequest env st now req).response.status ≠ 401 ∧
    (processRequest env st now req).response.status ≠ 403 := by
  have hd : dispatchAfterBody env now req =
      (fileRes "admin/index.html", [Stage.staticFiles, Stage.pageRoutes]) := by
    apply dispatch_page
    · rw [hm]; rfl
    · exact hs
    · rw [hp]; exact mounts_none_dashboard
    · rw [hp]; exact findPageRoute_dashboard
  rw [processRequest_forwarded env st now req hl hb, hd]
  exact ⟨rfl, rfl, (by decide : (200 : Nat) ≠ 401), (by decide : (200 : Nat) ≠ 403)⟩

/-- dispatch of a request whose method is neither GET nor HEAD and whose path
matches no API mount: straight to the 404 handler. -/
theorem dispatch_notGet (env : Env) (now : Nat) (req : Request)
    (hm : isGetLike req.method = false)
    (hmnt : apiPrefixList.find? (fun mnt => mountMatches mnt req.path) = none) :
    dispatchAfterBody env now req = (notFoundResponse req, [Stage.staticFiles, Stage.notFoundHandler]) := by
  simp only [dispatchAfterBody, hm, Bool.false_and, Bool.false_eq_true, if_false, hmnt,
    pageDispatch]

/-- no API mount matches any page-route path. -/
theorem mounts_none_of_page (p : String) (hp : p ∈ pagePaths) :
    apiPrefixList.find? (fun mnt => mountMatches mnt p) = none := by
  have e : pagePaths = ["/", "/start", "/launcher", "/admin", "/admin/",
      "/admin/login.html", "/admin/dashboard", "/order-confirmation"] := by decide
  rw [e] at hp
  fin_cases hp <;> decide

/-- C10: the page routes are bound to GET only; a request to a page-route path
with a method that is neither GET nor HEAD, passing the rate limiter and body
decoder, falls through to the 404 handler and receives the 404 JSON response. -/
theorem c10_page_routes_get_only (env : Env) (st : LimiterState) (now : Nat) (req : Request)
    (hp : req.path ∈ pagePaths)
    (hm : isGetLike req.method = false)
    (hl : (limiterCheck now st req.clientIp).1 = true)
    (hb : decodeBody req.rawBody = none) :
    (processRequest env st now req).response.status = 404 ∧
    (processRequest env st now req).response.body =
      ResBody.json [("error", "Route not found"),
                    ("message", "Cannot " ++ req.method ++ " " ++ req.path)] := by
  have hd : dispatchAfterBody env now req =
      (notFoundResponse req, [Stage.staticFiles, Stage.notFoundHandler]) :=
    dispatch_notGet env now req hm (mounts_none_of_page req.path hp)
  rw [processRequest_forwarded env st now req hl hb, hd]
  exact ⟨rfl, rfl⟩

/-- C10 witness: the theorem applied to POST /start. -/
theorem c10_page_routes_get_only_witness :
    (processRequest cEnv [] 9 (cReq "POST" "/start")).response.status = 404 ∧
    (processRequest cEnv [] 9 (cReq "POST" "/start")).response.body =
      ResBody.json [("error", "Route not found"), ("message", "Cannot POST /start")] :=
  c10_page_routes_get_only cEnv [] 9 (cReq "POST" "/start") (by decide) rfl (by decide) rfl

/-- C2 counterexample: GET /api/health matches no static asset, no mounted
API path group and no page route, yet the response has status 200, not 404:
the health-check route is a fourth matching category the claim omits. -/
theorem c2_counterexample :
    apiPrefixList.find? (fun mnt => mountMatches mnt "/api/health") = none ∧
    findPageRoute "/api/health" = none ∧
    cEnv.staticFiles.contains "/api/health" = false ∧
    (processRequest cEnv [] 0 (cReq "GET" "/api/health")).response.status = 200 ∧
    (processRequest cEnv [] 0 (cReq "GET" "/api/health")).response.status ≠ 404 := by
  decide

/-- C2 (amended): for every method and every path matching no static asset,
no mounted API path group, no page route and not the health-check route, a
request passing the rate limiter and body decoder receives status 404 with
the exact Route-not-found JSON body naming its method and path. -/
theorem c2_unmatched_404 (env : Env) (st : LimiterState) (now : Nat) (req : Request)
    (hl : (limiterCheck now st req.clientIp).1 = true)
    (hb : decodeBody req.rawBody = none)
    (hs : (isGetLike req.method && env.staticFiles.contains req.path) = false)
    (hmnt : apiPrefixList.find? (fun mnt => mountMatches mnt req.path) = none)
    (hpg : findPageRoute req.path = none)
    (hh : (isGetLike req.method && expressPathMatch "/api/health" req.path) = false) :
    (processRequest env st now req).response.status = 404 ∧
    (processRequest env st now req).response.body =
      ResBody.json [("error", "Route not found"),
                    ("message", "Cannot " ++ req.method ++ " " ++ req.path)] := by
  rw [processRequest_forwarded env st now req hl hb,
    dispatch_notFound_aux env now req hs hmnt hpg hh]
  exact ⟨rfl, rfl⟩

/-- C2 witness: the amended theorem applied to DELETE /definitely/missing. -/
theorem c2_unmatched_404_witness :
    (processRequest cEnv [] 2 (cReq "DELETE" "/definitely/missing")).response.status = 404 ∧
    (processRequest cEnv [] 2 (cReq "DELETE" "/definitely/missing")).response.body =
      ResBody.json [("error", "Route not found"), ("message", "Cannot DELETE /definitely/missing")] :=
  c2_unmatched_404 cEnv [] 2 (cReq "DELETE" "/definitely/missing")
    (by decide) rfl (by decide) (by decide) (by decide) (by decide)

/-- C3 counterexample: a malformed-JSON request is answered with status 500,
not with a bad-request 4xx status: the error middleware of server.js lines
117-123 converts the bad-request parse error into a 500. -/
theorem c3_counterexample :
    (processRequest cEnv [] 0
      { cReq "POST" "/api/orders" with rawBody := RawBody.jsonBody false 9 }).response.status = 500 ∧
    ¬(400 ≤ (processRequest cEnv [] 0
      { cReq "POST" "/api/orders" with rawBody := RawBody.jsonBody false 9 }).response.status ∧
      (processRequest cEnv [] 0
      { cReq "POST" "/api/orders" with rawBody := RawBody.jsonBody false 9 }).response.status < 500) := by
  decide

/-- C3 (amended): a request whose body is malformed JSON (and within the size
ceiling), passing the rate limiter, is answered by the central error handler
with status 500 and a structured JSON body, and never reaches the static
stage, an API route group, a page route or the health check. -/
theorem c3_malformed_json (env : Env) (st : LimiterState) (now : Nat) (req : Request) (n : Nat)
    (hbody : req.rawBody = RawBody.jsonBody false n)
    (hn : n ≤ bodyLimit)
    (hl : (limiterCheck now st req.clientIp).1 = true) :
    (processRequest env st now req).response.status = 500 ∧
    jsonField (processRequest env st now req).response "error" = some "Something went wrong!" ∧
    (processRequest env st now req).trace = chain5 ++ [Stage.errorMiddleware] ∧
    Stage.staticFiles ∉ (processRequest env st now req).trace ∧
    Stage.apiMount ∉ (processRequest env st now req).trace ∧
    Stage.pageRoutes ∉ (processRequest env st now req).trace ∧
    Stage.healthCheck ∉ (processRequest env st now req).trace := by
  have hd : decodeBody req.rawBody = some { status := 400, message := "Unexpected token in JSON" } := by
    rw [hbody]
    simp only [decodeBody, if_neg (Nat.not_lt.2 hn), Bool.false_eq_true, if_false]
  rw [processRequest_bodyError env st now req _ hl hd]
  refine ⟨rfl, rfl, rfl, ?_, ?_, ?_, ?_⟩
  · exact (by decide : Stage.staticFiles ∉ chain5 ++ [Stage.errorMiddleware])
  · exact (by decide : Stage.apiMount ∉ chain5 ++ [Stage.errorMiddleware])
  · exact (by decide : Stage.pageRoutes ∉ chain5 ++ [Stage.errorMiddleware])
  · exact (by decide : Stage.healthCheck ∉ chain5 ++ [Stage.errorMiddleware])

/-- C3 witness: the amended theorem applied to a malformed 9-byte JSON body. -/
theorem c3_malformed_json_witness :
    (processRequest cEnv [] 1
      { cReq "POST" "/api/orders" with rawBody := RawBody.jsonBody false 9 }).response.status = 500 ∧
    jsonField (processRequest cEnv [] 1
      { cReq "POST" "/api/orders" with rawBody := RawBody.jsonBody false 9 }).response "error" =
      some "Something went wrong!" ∧
    (processRequest cEnv [] 1
      { cReq "POST" "/api/orders" with rawBody := RawBody.jsonBody false 9 }).trace =
      chain5 ++ [Stage.errorMiddleware] ∧
    Stage.staticFiles ∉ (processRequest cEnv [] 1
      { cReq "POST" "/api/orders" with rawBody := RawBody.jsonBody false 9 }).trace ∧
    Stage.apiMount ∉ (processRequest cEnv [] 1
      { cReq "POST" "/api/orders" with rawBody := RawBody.jsonBody false 9 }).trace ∧
    Stage.pageRoutes ∉ (processRequest cEnv [] 1
      { cReq "POST" "/api/orders" with rawBody := RawBody.jsonBody false 9 }).trace ∧
    Stage.healthCheck ∉ (processRequest cEnv [] 1
      { cReq "POST" "/api/orders" with rawBody := RawBody.jsonBody false 9 }).trace :=
  c3_malformed_json cEnv [] 1 { cReq "POST" "/api/orders" with rawBody := RawBody.jsonBody false 9 }
    9 rfl (by decide) (by decide)

/-- C4 counterexample: with NODE_ENV test, a configuration that is not
production, a thrown handler error is reported with the generic message, not
the raw message: the raw message is exposed only under NODE_ENV development. -/
theorem c4_counterexample :
    cEnvTest.nodeEnv = some "test" ∧
    cEnvTest.nodeEnv ≠ some "production" ∧
    (processRequest cEnvTest [] 0 (cReq "GET" "/api/orders/9")).response.status = 500 ∧
    jsonField (processRequest cEnvTest [] 0 (cReq "GET" "/api/orders/9")).response "message" =
      some "Internal server error" ∧
    jsonField (processRequest cEnvTest [] 0 (cReq "GET" "/api/orders/9")).response "message" ≠
      some "boom" := by
  decide

/-- C4 (amended): every error caught by the error middleware, whether thrown
by an API route group or raised by the body decoder, yields status 500; the
message field carries the raw error message exactly when NODE_ENV equals
development and the generic Internal-server-error text in every other
configuration, production or not. -/
theorem c4_error_responses (env : Env) (st : LimiterState) (now : Nat) (req : Request) :
    (∀ mnt msg, (limiterCheck now st req.clientIp).1 = true →
      decodeBody req.rawBody = none →
      (isGetLike req.method && env.staticFiles.contains req.path) = false →
      apiPrefixList.find? (fun m => mountMatches m req.path) = some mnt →
      env.apiHandle mnt req = ApiOutcome.throwErr msg →
      (processRequest env st now req).response.status = 500 ∧
      jsonField (processRequest env st now req).response "message" =
        some (if env.nodeEnv = some "development" then msg else "Internal server error")) ∧
    (∀ err, (limiterCheck now st req.clientIp).1 = true →
      decodeBody req.rawBody = some err →
      (processRequest env st now req).response.status = 500 ∧
      jsonField (processRequest env st now req).response "message" =
        some (if env.nodeEnv = some "development" then err.message else "Internal server error")) := by
  constructor
  · intro mnt msg hl hb hs hmnt hthrow
    have hd : dispatchAfterBody env now req =
        (errorResponse env.nodeEnv { status := 500, message := msg },
         [Stage.staticFiles, Stage.apiMount, Stage.errorMiddleware]) := by
      simp only [dispatchAfterBody, hs, Bool.false_eq_true, if_false, hmnt, hthrow]
    rw [processRequest_forwarded env st now req hl hb, hd]
    exact ⟨rfl, rfl⟩
  · intro err hl hb
    rw [processRequest_bodyError env st now req err hl hb]
    exact ⟨rfl, rfl⟩

/-- C4 witness: the amended theorem applied under NODE_ENV development, where
the raw thrown message boom is exposed. -/
theorem c4_error_responses_witness :
    (processRequest cEnvDev [] 3 (cReq "GET" "/api/orders/9")).response.status = 500 ∧
    jsonField (processRequest cEnvDev [] 3 (cReq "GET" "/api/orders/9")).response "message" =
      some "boom" := by
  have h := (c4_error_responses cEnvDev [] 3 (cReq "GET" "/api/orders/9")).1 "/api/orders" "boom"
    (by decide) rfl (by decide) (by decide) rfl
  exact ⟨h.1, by rw [h.2]; rfl⟩

/-- a key that find? misses in a header list is not among its entries. -/
theorem not_mem_of_find?_none (k v : String) (l : List (String × String))
    (h : l.find? (fun p => p.1 == k) = none) : (k, v) ∉ l := by
  intro hm
  have hx := List.find?_eq_none.1 h _ hm
  simp at hx

/-- every page-route response carries either no headers or exactly the
redirect Location header. -/
theorem pageRoute_headers (p : String) (r : Response) (h : findPageRoute p = some r) :
    r.headers = [] ∨ r.headers = [("Location", "/launcher")] := by
  unfold findPageRoute at h
  rcases Option.map_eq_some'.1 h with ⟨e, he, rfl⟩
  have hmem := List.mem_of_find?_eq_some he
  have hall : ∀ e ∈ pageRouteTable, e.2.headers = [] ∨ e.2.headers = [("Location", "/launcher")] := by
    decide
  exact hall e hmem

/-- headers a dispatch response adds on its own, when no API mount matches. -/
theorem dispatch_headers_cases (env : Env) (now : Nat) (req : Request)
    (hmnt : apiPrefixList.find? (fun mnt => mountMatches mnt req.path) = none) :
    (dispatchAfterBody env now req).1.headers = [] ∨
    (dispatchAfterBody env now req).1.headers = [("Location", "/launcher")] := by
  simp only [dispatchAfterBody, hmnt]
  split
  · left; rfl
  · simp only [pageDispatch]
    split
    · rcases hfind : findPageRoute req.path with _ | r
      · simp only [hfind]
        split
        · left; rfl
        · left; rfl
      · simp only [hfind]
        exact pageRoute_headers req.path r hfind
    · left; rfl

/-- the headers of every response to a request that passes the limiter, when
no API mount matches, are the helmet headers, then the CORS headers, then a
dispatch tail that is empty or a single Location header. -/
theorem response_headers_shape (env : Env) (st : LimiterState) (now : Nat) (req : Request)
    (hl : (limiterCheck now st req.clientIp).1 = true)
    (hmnt : apiPrefixList.find? (fun mnt => mountMatches mnt req.path) = none) :
    ∃ tail, (processRequest env st now req).response.headers =
        helmetHeaders ++ (corsHeaders req.origin ++ tail) ∧
      (tail = [] ∨ tail = [("Location", "/launcher")]) := by
  rcases hd : decodeBody req.rawBody with _ | err
  · refine ⟨(dispatchAfterBody env now req).1.headers, ?_, dispatch_headers_cases env now req hmnt⟩
    rw [processRequest_forwarded env st now req hl hd]
    simp [withHeaders, pipelineHeaders, List.append_assoc]
  · refine ⟨[], ?_, Or.inl rfl⟩
    rw [processRequest_bodyError env st now req err hl hd]
    simp [withHeaders, pipelineHeaders, errorResponse]

/-- the CORS stage emits the permission headers for an allow-listed origin. -/
theorem corsHeaders_allowed (o : String) (h : o ∈ allowedOrigins) :
    corsHeaders (some o) =
      [("Access-Control-Allow-Origin", o),
       ("Access-Control-Allow-Credentials", "true"),
       ("Vary", "Origin")] := by
  simp only [corsHeaders, if_pos h]

/-- the CORS stage emits only a Vary header for an origin off the allow-list. -/
theorem corsHeaders_denied (o : String) (h : o ∉ allowedOrigins) :
    corsHeaders (some o) = [("Vary", "Origin")] := by
  simp only [corsHeaders, if_neg h]

/-- C8: for every request carrying an Origin header that passes the rate
limiter and is not delegated to an API route group, the response carries the
CORS permission headers, with credentials allowed, exactly when the origin is
on the fixed allow-list; for any other origin both permission headers are
absent, while the server still processes the request identically (same
status, body and stages as the same request without an Origin header). -/
theorem c8_cors_allowlist (env : Env) (st : LimiterState) (now : Nat) (req : Request) (o : String)
    (ho : req.origin = some o)
    (hl : (limiterCheck now st req.clientIp).1 = true)
    (hmnt : apiPrefixList.find? (fun mnt => mountMatches mnt req.path) = none) :
    (o ∈ allowedOrigins →
      getHeader (processRequest env st now req).response "Access-Control-Allow-Origin" = some o ∧
      getHeader (processRequest env st now req).response "Access-Control-Allow-Credentials" = some "true") ∧
    (o ∉ allowedOrigins →
      (∀ v, ("Access-Control-Allow-Origin", v) ∉ (processRequest env st now req).response.headers) ∧
      (∀ v, ("Access-Control-Allow-Credentials", v) ∉ (processRequest env st now req).response.headers)) ∧
    ((processRequest env st now { req with origin := none }).response.status =
      (processRequest env st now req).response.status ∧
     (processRequest env st now { req with origin := none }).response.body =
      (processRequest env st now req).response.body ∧
     (processRequest env st now { req with origin := none }).trace =
      (processRequest env st now req).trace) := by
  obtain ⟨tail, hshape, htail⟩ := response_headers_shape env st now req hl hmnt
  refine ⟨?_, ?_, ?_⟩
  · intro hmem
    have hcors := corsHeaders_allowed o hmem
    rw [ho] at hshape
    rw [hcors] at hshape
    constructor
    · simp only [getHeader, hshape, List.find?_append]
      have h1 : helmetHeaders.find? (fun p => p.1 == "Access-Control-Allow-Origin") = none := by
        decide
      rw [h1]
      rfl
    · simp only [getHeader, hshape, List.find?_append]
      have h1 : helmetHeaders.find? (fun p => p.1 == "Access-Control-Allow-Credentials") = none := by
        decide
      rw [h1]
      rfl
  · intro hmem
    have hcors := corsHeaders_denied o hmem
    rw [ho] at hshape
    rw [hcors] at hshape
    have hfind : ∀ k, k = "Access-Control-Allow-Origin" ∨ k = "Access-Control-Allow-Credentials" →
        (processRequest env st now req).response.headers.find? (fun p => p.1 == k) = none := by
      intro k hk
      rw [hshape]
      simp only [List.find?_append]
      rcases htail with ht | ht <;> rcases hk with rfl | rfl <;> rw [ht] <;> decide
    constructor
    · intro v
      exact not_mem_of_find?_none _ v _ (hfind _ (Or.inl rfl))
    · intro v
      exact not_mem_of_find?_none _ v _ (hfind _ (Or.inr rfl))
  · rcases hd : decodeBody req.rawBody with _ | err
    · have hmnt' : apiPrefixList.find?
          (fun mnt => mountMatches mnt ({ req with origin := none } : Request).path) = none := hmnt
      have hpd : pageDispatch now { req with origin := none } = pageDispatch now req := rfl
      have hdisp : dispatchAfterBody env now { req with origin := none } =
          dispatchAfterBody env now req := by
        simp only [dispatchAfterBody, hmnt, hmnt', hpd]
      rw [processRequest_forwarded env st now req hl hd,
        processRequest_forwarded env st now { req with origin := none } hl hd, hdisp]
      exact ⟨rfl, rfl, rfl⟩
    · rw [processRequest_bodyError env st now req err hl hd,
        processRequest_bodyError env st now { req with origin := none } err hl hd]
      exact ⟨rfl, rfl, rfl⟩

/-- C8 witness: the theorem applied with the allow-listed origin
http://localhost:3000 and with an origin off the list. -/
theorem c8_cors_allowlist_witness :
    (getHeader (processRequest cEnv [] 4
        { cReq "GET" "/launcher" with origin := some "http://localhost:3000" }).response
      "Access-Control-Allow-Origin" = some "http://localhost:3000" ∧
     getHeader (processRequest cEnv [] 4
        { cReq "GET" "/launcher" with origin := some "http://localhost:3000" }).response
      "Access-Control-Allow-Credentials" = some "true") ∧
    (∀ v, ("Access-Control-Allow-Origin", v) ∉ (processRequest cEnv [] 4
        { cReq "GET" "/launcher" with origin := some "http://evil.example" }).response.headers) := by
  constructor
  · exact (c8_cors_allowlist cEnv [] 4
      { cReq "GET" "/launcher" with origin := some "http://localhost:3000" }
      "http://localhost:3000" rfl (by decide) (by decide)).1 (by decide)
  · exact ((c8_cors_allowlist cEnv [] 4
      { cReq "GET" "/launcher" with origin := some "http://evil.example" }
      "http://evil.example" rfl (by decide) (by decide)).2.1 (by decide)).1

/-- exhaustive shape analysis of the dispatch stage. -/
theorem dispatch_cases (env : Env) (now : Nat) (req : Request) :
    dispatchAfterBody env now req = (fileRes req.path, [Stage.staticFiles]) ∨
    (∃ r, dispatchAfterBody env now req = (r, [Stage.staticFiles, Stage.apiMount])) ∨
    (∃ m, dispatchAfterBody env now req =
      (errorResponse env.nodeEnv { status := 500, message := m },
       [Stage.staticFiles, Stage.apiMount, Stage.errorMiddleware])) ∨
    (∃ r, dispatchAfterBody env now req = (r, [Stage.staticFiles, Stage.apiMount, Stage.pageRoutes])) ∨
    dispatchAfterBody env now req =
      (healthResponse now, [Stage.staticFiles, Stage.apiMount, Stage.healthCheck]) ∨
    dispatchAfterBody env now req =
      (notFoundResponse req, [Stage.staticFiles, Stage.apiMount, Stage.notFoundHandler]) ∨
    (∃ r, dispatchAfterBody env now req = (r, [Stage.staticFiles, Stage.pageRoutes])) ∨
    dispatchAfterBody env now req = (healthResponse now, [Stage.staticFiles, Stage.healthCheck]) ∨
    dispatchAfterBody env now req = (notFoundResponse req, [Stage.staticFiles, Stage.notFoundHandler]) := by
  have hpage : (pageDispatch now req = (notFoundResponse req, [Stage.notFoundHandler])) ∨
      (∃ r, pageDispatch now req = (r, [Stage.pageRoutes])) ∨
      (pageDispatch now req = (healthResponse now, [Stage.healthCheck])) := by
    simp only [pageDispatch]
    split
    · rcases hfind : findPageRoute req.path with _ | r
      · simp only
        split
        · exact Or.inr (Or.inr rfl)
        · exact Or.inl rfl
      · exact Or.inr (Or.inl ⟨r, rfl⟩)
    · exact Or.inl rfl
  simp only [dispatchAfterBody]
  split
  · exact Or.inl rfl
  · rcases hmnt : apiPrefixList.find? (fun mnt => mountMatches mnt req.path) with _ | mnt <;>
      simp only [hmnt]
    · rcases hpage with h | ⟨r, h⟩ | h <;> rw [h]
      · exact Or.inr (Or.inr (Or.inr (Or.inr (Or.inr (Or.inr (Or.inr (Or.inr rfl)))))))
      · exact Or.inr (Or.inr (Or.inr (Or.inr (Or.inr (Or.inr (Or.inl ⟨r, rfl⟩))))))
      · exact Or.inr (Or.inr (Or.inr (Or.inr (Or.inr (Or.inr (Or.inr (Or.inl rfl)))))))
    · rcases hh : env.apiHandle mnt req with r | _ | m <;> simp only [hh]
      · exact Or.inr (Or.inl ⟨r, rfl⟩)
      · rcases hpage with h | ⟨r, h⟩ | h <;> rw [h]
        · exact Or.inr (Or.inr (Or.inr (Or.inr (Or.inr (Or.inl rfl)))))
        · exact Or.inr (Or.inr (Or.inr (Or.inl ⟨r, rfl⟩)))
        · exact Or.inr (Or.inr (Or.inr (Or.inr (Or.inl rfl))))
      · exact Or.inr (Or.inr (Or.inl ⟨m, rfl⟩))

/-- packaging lemma for the C5 conjunction, parameterized by the concrete
stage trace of one pipeline run. -/
theorem c5_aux (o : Outcome) (tr : List Stage) (htr : o.trace = tr)
    (h1 : tr.Pairwise (fun a b => stageIndex a < stageIndex b))
    (h2 : tr.take 2 = [Stage.securityHeaders, Stage.rateLimiter])
    (h3 : ∀ s ∈ tr, 5 ≤ stageIndex s → tr.take 5 = chain5)
    (h4 : ∀ s ∈ tr, 6 ≤ stageIndex s → stageIndex s ≤ 8 → Stage.staticFiles ∈ tr)
    (h5 : Stage.notFoundHandler ∈ tr → o.response.status = 404) :
    o.trace.Pairwise (fun a b => stageIndex a < stageIndex b) ∧
    o.trace.take 2 = [Stage.securityHeaders, Stage.rateLimiter] ∧
    (∀ s ∈ o.trace, 5 ≤ stageIndex s → o.trace.take 5 = chain5) ∧
    (∀ s ∈ o.trace, 6 ≤ stageIndex s → stageIndex s ≤ 8 → Stage.staticFiles ∈ o.trace) ∧
    (Stage.notFoundHandler ∈ o.trace → o.response.status = 404) := by
  rw [htr]
  exact ⟨h1, h2, h3, h4, h5⟩

/-- C5: the stages every request enters are strictly ordered by their
registration index (security headers, rate limiter, logger, CORS, body
decoder, static files, API mounts, page routes, health check, then the
fallback error and 404 handlers); every request starts with the security
headers then the rate limiter; any request that reaches a dispatch or
fallback stage first passed the five middleware stages in their fixed order;
any dynamic route stage (API mount, page route, health check) is preceded by
the static-file stage; and a request that reaches the 404 fallback is
answered with status 404. -/
theorem c5_pipeline_order (env : Env) (st : LimiterState) (now : Nat) (req : Request) :
    (processRequest env st now req).trace.Pairwise (fun a b => stageIndex a < stageIndex b) ∧
    (processRequest env st now req).trace.take 2 = [Stage.securityHeaders, Stage.rateLimiter] ∧
    (∀ s ∈ (processRequest env st now req).trace, 5 ≤ stageIndex s →
      (processRequest env st now req).trace.take 5 = chain5) ∧
    (∀ s ∈ (processRequest env st now req).trace, 6 ≤ stageIndex s → stageIndex s ≤ 8 →
      Stage.staticFiles ∈ (processRequest env st now req).trace) ∧
    (Stage.notFoundHandler ∈ (processRequest env st now req).trace →
      (processRequest env st now req).response.status = 404) := by
  rcases hl : (limiterCheck now st req.clientIp).1 with _ | _
  · rw [processRequest_rejected env st now req hl]
    exact c5_aux _ [Stage.securityHeaders, Stage.rateLimiter] rfl (by decide) (by decide)
      (by decide) (by decide) (fun h => absurd h (by decide))
  · rcases hd : decodeBody req.rawBody with _ | err
    · rw [processRequest_forwarded env st now req hl hd]
      rcases dispatch_cases env now req with h | ⟨r, h⟩ | ⟨m, h⟩ | ⟨r, h⟩ | h | h | ⟨r, h⟩ | h | h <;>
        rw [h]
      · exact c5_aux _ [Stage.securityHeaders, Stage.rateLimiter, Stage.logger, Stage.corsPolicy,
          Stage.bodyDecoder, Stage.staticFiles] rfl (by decide) (by decide) (by decide) (by decide)
          (fun h => absurd h (by decide))
      · exact c5_aux _ [Stage.securityHeaders, Stage.rateLimiter, Stage.logger, Stage.corsPolicy,
          Stage.bodyDecoder, Stage.staticFiles, Stage.apiMount] rfl (by decide) (by decide)
          (by decide) (by decide) (fun h => absurd h (by decide))
      · exact c5_aux _ [Stage.securityHeaders, Stage.rateLimiter, Stage.logger, Stage.corsPolicy,
          Stage.bodyDecoder, Stage.staticFiles, Stage.apiMount, Stage.errorMiddleware] rfl
          (by decide) (by decide) (by decide) (by decide) (fun h => absurd h (by decide))
      · exact c5_aux _ [Stage.securityHeaders, Stage.rateLimiter, Stage.logger, Stage.corsPolicy,
          Stage.bodyDecoder, Stage.staticFiles, Stage.apiMount, Stage.pageRoutes] rfl
          (by decide) (by decide) (by decide) (by decide) (fun h => absurd h (by decide))
      · exact c5_aux _ [Stage.securityHeaders, Stage.rateLimiter, Stage.logger, Stage.corsPolicy,
          Stage.bodyDecoder, Stage.staticFiles, Stage.apiMount, Stage.healthCheck] rfl
          (by decide) (by decide) (by decide) (by decide) (fun h => absurd h (by decide))
      · exact c5_aux _ [Stage.securityHeaders, Stage.rateLimiter, Stage.logger, Stage.corsPolicy,
          Stage.bodyDecoder, Stage.staticFiles, Stage.apiMount, Stage.notFoundHandler] rfl
          (by decide) (by decide) (by decide) (by decide) (fun _ => rfl)
      · exact c5_aux _ [Stage.securityHeaders, Stage.rateLimiter, Stage.logger, Stage.corsPolicy,
          Stage.bodyDecoder, Stage.staticFiles, Stage.pageRoutes] rfl (by decide) (by decide)
          (by decide) (by decide) (fun h => absurd h (by decide))
      · exact c5_aux _ [Stage.securityHeaders, Stage.rateLimiter, Stage.logger, Stage.corsPolicy,
          Stage.bodyDecoder, Stage.staticFiles, Stage.healthCheck] rfl (by decide) (by decide)
          (by decide) (by decide) (fun h => absurd h (by decide))
      · exact c5_aux _ [Stage.securityHeaders, Stage.rateLimiter, Stage.logger, Stage.corsPolicy,
          Stage.bodyDecoder, Stage.staticFiles, Stage.notFoundHandler] rfl (by decide) (by decide)
          (by decide) (by decide) (fun _ => rfl)
    · rw [processRequest_bodyError env st now req err hl hd]
      exact c5_aux _ [Stage.securityHeaders, Stage.rateLimiter, Stage.logger, Stage.corsPolicy,
        Stage.bodyDecoder, Stage.errorMiddleware] rfl (by decide) (by decide) (by decide)
        (by decide) (fun h => absurd h (by decide))

/-! ## Rate-limiter lemmas for C1 -/

theorem limiterLookup_update_self : ∀ (st : LimiterState) (ip : String) (v : Nat × Nat),
    limiterLookup (limiterUpdate st ip v) ip = some v
  | [], ip, v => by simp [limiterUpdate, limiterLookup]
  | (k, w) :: rest, ip, v => by
    by_cases h : k = ip
    · simp [limiterUpdate, h, limiterLookup]
    · simp only [limiterUpdate, if_neg h, limiterLookup]
      exact limiterLookup_update_self rest ip v

/-- the first request of a client creates its window and is allowed. -/
theorem limiterCheck_fresh (now : Nat) (st : LimiterState) (ip : String)
    (h : limiterLookup st ip = none) :
    (limiterCheck now st ip).1 = true ∧
    limiterLookup (limiterCheck now st ip).2 ip = some (1, now) := by
  have h2 : (limiterCheck now st ip).2 = limiterUpdate st ip (1, now) := by
    simp [limiterCheck, h]
  have h1 : (limiterCheck now st ip).1 = true := by
    simp [limiterCheck, h, maxRequests]
  exact ⟨h1, h2 ▸ limiterLookup_update_self st ip (1, now)⟩

/-- a request inside a still-active window increments the counter and is
allowed exactly while the incremented counter stays within the maximum. -/
theorem limiterCheck_active (now : Nat) (st : LimiterState) (ip : String) (k s : Nat)
    (h : limiterLookup st ip = some (k, s)) (hw : now < s + windowMs) :
    (limiterCheck now st ip).1 = decide (k + 1 ≤ maxRequests) ∧
    limiterLookup (limiterCheck now st ip).2 ip = some (k + 1, s) := by
  have h2 : (limiterCheck now st ip).2 = limiterUpdate st ip (k + 1, s) := by
    simp [limiterCheck, h, if_neg (Nat.not_le.2 hw)]
  have h1 : (limiterCheck now st ip).1 = decide (k + 1 ≤ maxRequests) := by
    simp [limiterCheck, h, if_neg (Nat.not_le.2 hw)]
  exact ⟨h1, h2 ▸ limiterLookup_update_self st ip (k + 1, s)⟩

/-- a request after the window elapsed resets the counter and is allowed. -/
theorem limiterCheck_expired (now : Nat) (st : LimiterState) (ip : String) (k s : Nat)
    (h : limiterLookup st ip = some (k, s)) (hw : s + windowMs ≤ now) :
    (limiterCheck now st ip).1 = true ∧
    limiterLookup (limiterCheck now st ip).2 ip = some (1, now) := by
  have h2 : (limiterCheck now st ip).2 = limiterUpdate st ip (1, now) := by
    simp [limiterCheck, h, if_pos hw]
  have h1 : (limiterCheck now st ip).1 = true := by
    simp [limiterCheck, h, if_pos hw, maxRequests]
  exact ⟨h1, h2 ▸ limiterLookup_update_self st ip (1, now)⟩

/-- the limiter state an outcome carries is the one the limiter step left. -/
theorem processRequest_limiter (env : Env) (st : LimiterState) (now : Nat) (req : Request) :
    (processRequest env st now req).limiter = (limiterCheck now st req.clientIp).2 := by
  simp only [processRequest]
  split
  · split <;> rfl
  · rfl

/-- a request the limiter lets through passes the whole middleware chain: its
trace starts with the five middleware stages in order. -/
theorem processRequest_take5 (env : Env) (st : LimiterState) (now : Nat) (req : Request)
    (h : (limiterCheck now st req.clientIp).1 = true) :
    (processRequest env st now req).trace.take 5 = chain5 := by
  have h5 : 5 ≤ chain5.length := by decide
  rcases hd : decodeBody req.rawBody with _ | err
  · rw [processRequest_forwarded env st now req h hd]
    show (chain5 ++ (dispatchAfterBody env now req).2).take 5 = chain5
    rw [List.take_append_of_le_length h5]
    rfl
  · rw [processRequest_bodyError env st now req err h hd]
    show (chain5 ++ [Stage.errorMiddleware]).take 5 = chain5
    rw [List.take_append_of_le_length h5]
    rfl

/-- invariant of a run of same-client requests inside one window: the counter
advances by one per request, request number k+i+1 is forwarded exactly while
it stays within the maximum and is otherwise rejected at the limiter. -/
theorem c1_seq_aux (env : Env) (c : String) (t0 : Nat) :
    ∀ (reqs : List (Nat × Request)) (st : LimiterState) (k : Nat),
      limiterLookup st c = some (k, t0) →
      (∀ p ∈ reqs, p.2.clientIp = c ∧ p.1 < t0 + windowMs) →
      limiterLookup (runSeqState env st reqs) c = some (k + reqs.length, t0) ∧
      (runSeq env st reqs).length = reqs.length ∧
      ∀ i (hi : i < (runSeq env st reqs).length),
        (k + i + 1 ≤ maxRequests →
          ((runSeq env st reqs).get ⟨i, hi⟩).trace.take 5 = chain5) ∧
        (maxRequests < k + i + 1 →
          ((runSeq env st reqs).get ⟨i, hi⟩).response.status = 429 ∧
          ((runSeq env st reqs).get ⟨i, hi⟩).trace = [Stage.securityHeaders, Stage.rateLimiter])
  | [], st, k, hst, _ => by
      refine ⟨by simpa [runSeqState] using hst, rfl, ?_⟩
      intro i hi
      exact absurd hi (by simp [runSeq])
  | (t, r) :: rest, st, k, hst, hin => by
      have hc : r.clientIp = c := (hin (t, r) (List.mem_cons_self _ _)).1
      have hw : t < t0 + windowMs := (hin (t, r) (List.mem_cons_self _ _)).2
      have hstep := limiterCheck_active t st c k t0 hst hw
      have hlim : (processRequest env st t r).limiter = (limiterCheck t st c).2 := by
        rw [processRequest_limiter, hc]
      have hlook : limiterLookup (processRequest env st t r).limiter c = some (k + 1, t0) := by
        rw [hlim]; exact hstep.2
      have hin' : ∀ p ∈ rest, p.2.clientIp = c ∧ p.1 < t0 + windowMs :=
        fun p hp => hin p (List.mem_cons_of_mem _ hp)
      obtain ⟨ihLook, ihLen, ihIdx⟩ := c1_seq_aux env c t0 rest (processRequest env st t r).limiter
        (k + 1) hlook hin'
      refine ⟨?_, ?_, ?_⟩
      · show limiterLookup (runSeqState env ((processRequest env st t r).limiter) rest) c = _
        rw [ihLook]
        have hlen : k + 1 + rest.length = k + ((t, r) :: rest).length := by
          simp only [List.length_cons]
          omega
        rw [hlen]
      · show (processRequest env st t r :: runSeq env _ rest).length = rest.length + 1
        simp [ihLen]
      · intro i hi
        match i, hi with
        | 0, hi =>
          constructor
          · intro hk
            apply processRequest_take5
            rw [hc, hstep.1]
            exact decide_eq_true (by omega : k + 1 ≤ maxRequests)
          · intro hk
            have hl : (limiterCheck t st r.clientIp).1 = false := by
              rw [hc, hstep.1]
              exact decide_eq_false (by omega : ¬ k + 1 ≤ maxRequests)
            rw [show ((runSeq env st ((t, r) :: rest)).get ⟨0, hi⟩) = processRequest env st t r from rfl,
              processRequest_rejected env st t r hl]
            exact ⟨rfl, rfl⟩
        | i + 1, hi =>
          have hi' : i < (runSeq env (processRequest env st t r).limiter rest).length := by
            have : (runSeq env st ((t, r) :: rest)).length =
                (runSeq env (processRequest env st t r).limiter rest).length + 1 := by
              simp [runSeq]
            omega
          have hidx := ihIdx i hi'
          have hget : (runSeq env st ((t, r) :: rest)).get ⟨i + 1, hi⟩ =
              (runSeq env (processRequest env st t r).limiter rest).get ⟨i, hi'⟩ := rfl
          rw [hget]
          constructor
          · intro hk
            exact hidx.1 (by omega)
          · intro hk
            exact hidx.2 (by omega)

/-- C1: for every client, with a fresh limiter entry, a sequence of requests
in one window starting at its first request time t0: request number i+1 is
forwarded through the whole middleware chain while i+1 is at most 100, and
from request 101 on every request in the window is rejected with status 429
at the rate-limiter stage, reaching no later stage; once the window has
elapsed the counter resets and a further request of the client is forwarded
again. -/
theorem c1_rate_limit_window (env : Env) (st0 : LimiterState) (c : String) (t0 : Nat)
    (r0 : Request) (rest : List (Nat × Request))
    (hfresh : limiterLookup st0 c = none)
    (hr0 : r0.clientIp = c)
    (hrest : ∀ p ∈ rest, p.2.clientIp = c ∧ p.1 < t0 + windowMs) :
    (∀ i (hi : i < (runSeq env st0 ((t0, r0) :: rest)).length), i + 1 ≤ maxRequests →
      ((runSeq env st0 ((t0, r0) :: rest)).get ⟨i, hi⟩).trace.take 5 = chain5) ∧
    (∀ i (hi : i < (runSeq env st0 ((t0, r0) :: rest)).length), maxRequests < i + 1 →
      ((runSeq env st0 ((t0, r0) :: rest)).get ⟨i, hi⟩).response.status = 429 ∧
      ((runSeq env st0 ((t0, r0) :: rest)).get ⟨i, hi⟩).trace =
        [Stage.securityHeaders, Stage.rateLimiter]) ∧
    (∀ t r, t0 + windowMs ≤ t → r.clientIp = c →
      (processRequest env (runSeqState env st0 ((t0, r0) :: rest)) t r).trace.take 5 = chain5) := by
  have hstep := limiterCheck_fresh t0 st0 c hfresh
  have hlim : (processRequest env st0 t0 r0).limiter = (limiterCheck t0 st0 c).2 := by
    rw [processRequest_limiter, hr0]
  have hlook : limiterLookup (processRequest env st0 t0 r0).limiter c = some (1, t0) := by
    rw [hlim]; exact hstep.2
  obtain ⟨ihLook, ihLen, ihIdx⟩ := c1_seq_aux env c t0 rest (processRequest env st0 t0 r0).limiter
    1 hlook hrest
  refine ⟨?_, ?_, ?_⟩
  · intro i hi hk
    match i, hi with
    | 0, hi =>
      apply processRequest_take5
      rw [hr0]
      exact hstep.1
    | i + 1, hi =>
      have hi' : i < (runSeq env (processRequest env st0 t0 r0).limiter rest).length := by
        have : (runSeq env st0 ((t0, r0) :: rest)).length =
            (runSeq env (processRequest env st0 t0 r0).limiter rest).length + 1 := by
          simp [runSeq]
        omega
      have := (ihIdx i hi').1 (by omega)
      exact this
  · intro i hi hk
    match i, hi with
    | 0, hi => exact absurd hk (by decide)
    | i + 1, hi =>
      have hi' : i < (runSeq env (processRequest env st0 t0 r0).limiter rest).length := by
        have : (runSeq env st0 ((t0, r0) :: rest)).length =
            (runSeq env (processRequest env st0 t0 r0).limiter rest).length + 1 := by
          simp [runSeq]
        omega
      exact (ihIdx i hi').2 (by omega)
  · intro t r ht hcr
    have hfin : limiterLookup (runSeqState env st0 ((t0, r0) :: rest)) c =
        some (1 + rest.length, t0) := ihLook
    have hexp := limiterCheck_expired t (runSeqState env st0 ((t0, r0) :: rest)) c
      (1 + rest.length) t0 hfin ht
    apply processRequest_take5
    rw [hcr]
    exact hexp.1

/-- C1 witness: the theorem applied to two same-client requests at times 0
and 1 inside one window, starting from an empty limiter state. -/
theorem c1_rate_limit_window_witness :
    (∀ i (hi : i < (runSeq cEnv [] ((0, cReq "GET" "/") :: [(1, cReq "GET" "/")])).length),
      i + 1 ≤ maxRequests →
      ((runSeq cEnv [] ((0, cReq "GET" "/") :: [(1, cReq "GET" "/")])).get ⟨i, hi⟩).trace.take 5 =
        chain5) ∧
    (∀ i (hi : i < (runSeq cEnv [] ((0, cReq "GET" "/") :: [(1, cReq "GET" "/")])).length),
      maxRequests < i + 1 →
      ((runSeq cEnv [] ((0, cReq "GET" "/") :: [(1, cReq "GET" "/")])).get ⟨i, hi⟩).response.status = 429 ∧
      ((runSeq cEnv [] ((0, cReq "GET" "/") :: [(1, cReq "GET" "/")])).get ⟨i, hi⟩).trace =
        [Stage.securityHeaders, Stage.rateLimiter]) ∧
    (∀ t r, 0 + windowMs ≤ t → r.clientIp = "203.0.113.7" →
      (processRequest cEnv (runSeqState cEnv [] ((0, cReq "GET" "/") :: [(1, cReq "GET" "/")])) t r).trace.take 5 =
        chain5) :=
  c1_rate_limit_window cEnv [] "203.0.113.7" 0 (cReq "GET" "/") [(1, cReq "GET" "/")]
    rfl rfl (by decide)

/-! ## Calendar lemmas for C6 -/

theorem daysInYear_ge (y : Nat) : 365 ≤ daysInYear y := by
  unfold daysInYear
  split <;> omega

theorem daysInYear_le (y : Nat) : daysInYear y ≤ 366 := by
  unfold daysInYear
  split <;> omega

theorem daysBetween_ge : ∀ (n y0 : Nat), 365 * n ≤ daysBetween y0 n
  | 0, _ => by simp [daysBetween]
  | n + 1, y0 => by
      have h := daysBetween_ge n (y0 + 1)
      have h365 := daysInYear_ge y0
      show 365 * (n + 1) ≤ daysInYear y0 + daysBetween (y0 + 1) n
      omega

theorem yearOfAux_spec : ∀ (fuel y d : Nat), d ≤ 365 * fuel + 364 →
    y ≤ (yearOfAux fuel y d).1 ∧
    (yearOfAux fuel y d).2 < daysInYear (yearOfAux fuel y d).1 ∧
    daysBetween y ((yearOfAux fuel y d).1 - y) + (yearOfAux fuel y d).2 = d
  | 0, y, d, h => by
      have hlt : d < daysInYear y := by have := daysInYear_ge y; omega
      simp only [yearOfAux]
      refine ⟨Nat.le_refl y, hlt, ?_⟩
      simp [daysBetween]
  | fuel + 1, y, d, h => by
      by_cases hd : d < daysInYear y
      · simp only [yearOfAux, if_pos hd]
        refine ⟨Nat.le_refl y, hd, ?_⟩
        simp [daysBetween]
      · simp only [yearOfAux, if_neg hd]
        have hge : daysInYear y ≤ d := Nat.not_lt.1 hd
        have h365 := daysInYear_ge y
        have h' : d - daysInYear y ≤ 365 * fuel + 364 := by omega
        obtain ⟨ih1, ih2, ih3⟩ := yearOfAux_spec fuel (y + 1) (d - daysInYear y) h'
        refine ⟨by omega, ih2, ?_⟩
        have hyy : (yearOfAux fuel (y + 1) (d - daysInYear y)).1 - y
            = ((yearOfAux fuel (y + 1) (d - daysInYear y)).1 - (y + 1)) + 1 := by omega
        rw [hyy]
        have hstep : daysBetween y (((yearOfAux fuel (y + 1) (d - daysInYear y)).1 - (y + 1)) + 1)
            = daysInYear y + daysBetween (y + 1)
                ((yearOfAux fuel (y + 1) (d - daysInYear y)).1 - (y + 1)) := rfl
        rw [hstep]
        omega

theorem yearOfAux_fuel : ∀ (f1 f2 y d : Nat), d ≤ 365 * f1 + 364 → d ≤ 365 * f2 + 364 →
    yearOfAux f1 y d = yearOfAux f2 y d
  | 0, f2, y, d, hf1, _ => by
      cases f2 with
      | zero => rfl
      | succ f2 =>
        have hlt : d < daysInYear y := by have := daysInYear_ge y; omega
        simp only [yearOfAux, if_pos hlt]
  | f1 + 1, f2, y, d, hf1, hf2 => by
      cases f2 with
      | zero =>
        have hlt : d < daysInYear y := by have := daysInYear_ge y; omega
        simp only [yearOfAux, if_pos hlt]
      | succ f2 =>
        by_cases hd : d < daysInYear y
        · simp only [yearOfAux, if_pos hd]
        · simp only [yearOfAux, if_neg hd]
          have hge : daysInYear y ≤ d := Nat.not_lt.1 hd
          have h365 := daysInYear_ge y
          exact yearOfAux_fuel f1 f2 (y + 1) (d - daysInYear y) (by omega) (by omega)

theorem yearOfAux_lt : ∀ (fuel y d1 d2 : Nat), d1 < d2 → d2 ≤ 365 * fuel + 364 →
    (yearOfAux fuel y d1).1 < (yearOfAux fuel y d2).1 ∨
    ((yearOfAux fuel y d1).1 = (yearOfAux fuel y d2).1 ∧
     (yearOfAux fuel y d1).2 < (yearOfAux fuel y d2).2)
  | 0, y, d1, d2, hlt, _ => by
      simp only [yearOfAux]
      exact Or.inr ⟨by trivial, hlt⟩
  | fuel + 1, y, d1, d2, hlt, hb => by
      by_cases h2 : d2 < daysInYear y
      · have h1 : d1 < daysInYear y := by omega
        simp only [yearOfAux, if_pos h1, if_pos h2]
        exact Or.inr ⟨by trivial, hlt⟩
      · by_cases h1 : d1 < daysInYear y
        · simp only [yearOfAux, if_pos h1, if_neg h2]
          left
          have h365 := daysInYear_ge y
          have h' : d2 - daysInYear y ≤ 365 * fuel + 364 := by omega
          have := (yearOfAux_spec fuel (y + 1) (d2 - daysInYear y) h').1
          show y < (yearOfAux fuel (y + 1) (d2 - daysInYear y)).1
          omega
        · simp only [yearOfAux, if_neg h1, if_neg h2]
          have h365 := daysInYear_ge y
          exact yearOfAux_lt fuel (y + 1) (d1 - daysInYear y) (d2 - daysInYear y)
            (by omega) (by omega)

theorem yearOf_spec (d : Nat) :
    1970 ≤ (yearOf d).1 ∧ (yearOf d).2 < daysInYear (yearOf d).1 ∧
    daysBetween 1970 ((yearOf d).1 - 1970) + (yearOf d).2 = d :=
  yearOfAux_spec d 1970 d (by omega)

theorem yearOf_lt (d1 d2 : Nat) (h : d1 < d2) :
    (yearOf d1).1 < (yearOf d2).1 ∨
    ((yearOf d1).1 = (yearOf d2).1 ∧ (yearOf d1).2 < (yearOf d2).2) := by
  have e : yearOfAux d1 1970 d1 = yearOfAux d2 1970 d1 :=
    yearOfAux_fuel d1 d2 1970 d1 (by omega) (by omega)
  unfold yearOf
  rw [e]
  exact yearOfAux_lt d2 1970 d1 d2 h (by omega)

theorem yearOf_le_9999 (d : Nat) (hd : d < 2930585) : (yearOf d).1 ≤ 9999 := by
  obtain ⟨h1, _, h3⟩ := yearOf_spec d
  by_contra hy
  have hb := daysBetween_ge ((yearOf d).1 - 1970) 1970
  omega

/-! ## Month lemmas for C6 -/

theorem mdAux_ge : ∀ (moList : List Nat) (m d : Nat), m ≤ (mdAux moList m d).1
  | [], m, _ => Nat.le_refl m
  | len :: rest, m, d => by
      by_cases hd : d < len
      · simp only [mdAux, if_pos hd]
        exact Nat.le_refl m
      · simp only [mdAux, if_neg hd]
        exact Nat.le_trans (Nat.le_succ m) (mdAux_ge rest (m + 1) (d - len))

theorem mdAux_spec : ∀ (moList : List Nat) (m d : Nat), d < moList.sum →
    (∀ x ∈ moList, x ≤ 31) →
    (mdAux moList m d).1 < m + moList.length ∧
    1 ≤ (mdAux moList m d).2 ∧ (mdAux moList m d).2 ≤ 31
  | [], _, d, h, _ => by simp at h
  | len :: rest, m, d, h, hx => by
      by_cases hd : d < len
      · simp only [mdAux, if_pos hd, List.length_cons]
        have hlen : len ≤ 31 := hx len (List.mem_cons_self _ _)
        refine ⟨by omega, by omega, by omega⟩
      · simp only [mdAux, if_neg hd, List.length_cons]
        have hsum : d - len < rest.sum := by
          simp only [List.sum_cons] at h
          omega
        have hx' : ∀ x ∈ rest, x ≤ 31 := fun x hmem => hx x (List.mem_cons_of_mem _ hmem)
        obtain ⟨ih1, ih2, ih3⟩ := mdAux_spec rest (m + 1) (d - len) hsum hx'
        exact ⟨by omega, ih2, ih3⟩

theorem mdAux_lt : ∀ (moList : List Nat) (m d1 d2 : Nat), d1 < d2 → d2 < moList.sum →
    (mdAux moList m d1).1 < (mdAux moList m d2).1 ∨
    ((mdAux moList m d1).1 = (mdAux moList m d2).1 ∧
     (mdAux moList m d1).2 < (mdAux moList m d2).2)
  | [], _, _, d2, _, hb => by simp at hb
  | len :: rest, m, d1, d2, hlt, hb => by
      by_cases h2 : d2 < len
      · have h1 : d1 < len := by omega
        simp only [mdAux, if_pos h1, if_pos h2]
        exact Or.inr ⟨by trivial, by omega⟩
      · by_cases h1 : d1 < len
        · simp only [mdAux, if_pos h1, if_neg h2]
          left
          have := mdAux_ge rest (m + 1) (d2 - len)
          show m < (mdAux rest (m + 1) (d2 - len)).1
          omega
        · simp only [mdAux, if_neg h1, if_neg h2]
          have hsum : d2 - len < rest.sum := by
            simp only [List.sum_cons] at hb
            omega
          exact mdAux_lt rest (m + 1) (d1 - len) (d2 - len) (by omega) hsum

theorem sum_monthLengths (y : Nat) : (monthLengths (isLeapYear y)).sum = daysInYear y := by
  unfold daysInYear
  cases h : isLeapYear y <;> simp [h, monthLengths]

theorem monthLengths_le31 (leap : Bool) : ∀ x ∈ monthLengths leap, x ≤ 31 := by
  cases leap <;> decide

theorem monthLengths_length (leap : Bool) : (monthLengths leap).length = 12 := by
  cases leap <;> rfl

theorem monthDayOf_def (leap : Bool) (doy : Nat) :
    monthDayOf leap doy = mdAux (monthLengths leap) 1 doy := rfl

/-! ## Field projections and bounds of the calendar rendering -/

theorem isoFields_y (t : Nat) : (isoFields t).1 = (yearOf (t / 86400000)).1 := rfl

theorem isoFields_mo (t : Nat) : (isoFields t).2.1 =
    (monthDayOf (isLeapYear (yearOf (t / 86400000)).1) (yearOf (t / 86400000)).2).1 := rfl

theorem isoFields_dy (t : Nat) : (isoFields t).2.2.1 =
    (monthDayOf (isLeapYear (yearOf (t / 86400000)).1) (yearOf (t / 86400000)).2).2 := rfl

theorem isoFields_h (t : Nat) : (isoFields t).2.2.2.1 = t % 86400000 / 3600000 := rfl

theorem isoFields_mi (t : Nat) : (isoFields t).2.2.2.2.1 = t % 86400000 % 3600000 / 60000 := rfl

theorem isoFields_s (t : Nat) : (isoFields t).2.2.2.2.2.1 = t % 86400000 % 60000 / 1000 := rfl

theorem isoFields_ms (t : Nat) : (isoFields t).2.2.2.2.2.2 = t % 86400000 % 1000 := rfl

theorem isoFields_bounds (t : Nat) :
    (isoFields t).2.1 ≤ 99 ∧ (isoFields t).2.2.1 ≤ 99 ∧ (isoFields t).2.2.2.1 ≤ 99 ∧
    (isoFields t).2.2.2.2.1 ≤ 99 ∧ (isoFields t).2.2.2.2.2.1 ≤ 99 ∧
    (isoFields t).2.2.2.2.2.2 ≤ 999 := by
  obtain ⟨_, hdoy, _⟩ := yearOf_spec (t / 86400000)
  have hdoy' : (yearOf (t / 86400000)).2 <
      (monthLengths (isLeapYear (yearOf (t / 86400000)).1)).sum := by
    rw [sum_monthLengths]
    exact hdoy
  obtain ⟨hmo, _, hdy⟩ := mdAux_spec (monthLengths (isLeapYear (yearOf (t / 86400000)).1)) 1
    (yearOf (t / 86400000)).2 hdoy' (monthLengths_le31 _)
  have hlen := monthLengths_length (isLeapYear (yearOf (t / 86400000)).1)
  refine ⟨?_, ?_, ?_, ?_, ?_, ?_⟩
  · rw [isoFields_mo, monthDayOf_def]
    omega
  · rw [isoFields_dy, monthDayOf_def]
    omega
  · rw [isoFields_h]
    omega
  · rw [isoFields_mi]
    omega
  · rw [isoFields_s]
    omega
  · rw [isoFields_ms]
    omega

theorem isoFields_year_le (t : Nat) (h : t < isoLimit) : (isoFields t).1 ≤ 9999 := by
  rw [isoFields_y]
  apply yearOf_le_9999
  have e : isoLimit = 2930585 * 86400000 := rfl
  omega

/-- the calendar fields are lexicographically strictly increasing in the
clock value. -/
theorem isoFields_lex (t1 t2 : Nat) (h12 : t1 < t2) :
    (isoFields t1).1 < (isoFields t2).1 ∨
    ((isoFields t1).1 = (isoFields t2).1 ∧
     ((isoFields t1).2.1 < (isoFields t2).2.1 ∨
      ((isoFields t1).2.1 = (isoFields t2).2.1 ∧
       ((isoFields t1).2.2.1 < (isoFields t2).2.2.1 ∨
        ((isoFields t1).2.2.1 = (isoFields t2).2.2.1 ∧
         ((isoFields t1).2.2.2.1 < (isoFields t2).2.2.2.1 ∨
          ((isoFields t1).2.2.2.1 = (isoFields t2).2.2.2.1 ∧
           ((isoFields t1).2.2.2.2.1 < (isoFields t2).2.2.2.2.1 ∨
            ((isoFields t1).2.2.2.2.1 = (isoFields t2).2.2.2.2.1 ∧
             ((isoFields t1).2.2.2.2.2.1 < (isoFields t2).2.2.2.2.2.1 ∨
              ((isoFields t1).2.2.2.2.2.1 = (isoFields t2).2.2.2.2.2.1 ∧
               (isoFields t1).2.2.2.2.2.2 < (isoFields t2).2.2.2.2.2.2))))))))))) := by
  by_cases hd : t1 / 86400000 = t2 / 86400000
  · right
    refine ⟨by rw [isoFields_y, isoFields_y, hd], ?_⟩
    right
    refine ⟨by rw [isoFields_mo, isoFields_mo, hd], ?_⟩
    right
    refine ⟨by rw [isoFields_dy, isoFields_dy, hd], ?_⟩
    rw [isoFields_h, isoFields_h, isoFields_mi, isoFields_mi, isoFields_s, isoFields_s,
      isoFields_ms, isoFields_ms]
    omega
  · have hdlt : t1 / 86400000 < t2 / 86400000 := by
      have hle : t1 / 86400000 ≤ t2 / 86400000 := Nat.div_le_div_right (Nat.le_of_lt h12)
      omega
    rcases yearOf_lt (t1 / 86400000) (t2 / 86400000) hdlt with hy | ⟨hy, hdoy⟩
    · left
      rw [isoFields_y, isoFields_y]
      exact hy
    · right
      refine ⟨by rw [isoFields_y, isoFields_y, hy], ?_⟩
      have hsum : (yearOf (t2 / 86400000)).2 <
          (monthLengths (isLeapYear (yearOf (t2 / 86400000)).1)).sum := by
        rw [sum_monthLengths]
        exact (yearOf_spec _).2.1
      have hmd := mdAux_lt (monthLengths (isLeapYear (yearOf (t2 / 86400000)).1)) 1
        (yearOf (t1 / 86400000)).2 (yearOf (t2 / 86400000)).2 hdoy hsum
      rw [isoFields_mo, isoFields_mo, isoFields_dy, isoFields_dy, monthDayOf_def,
        monthDayOf_def, hy]
      rcases hmd with h | ⟨heq, hlt⟩
      · exact Or.inl h
      · exact Or.inr ⟨heq, Or.inl hlt⟩

/-! ## Lexicographic string lemmas for C6 -/

theorem digitChar_lt (a b : Nat) (h : a < b) (hb : b ≤ 9) : digitChar a < digitChar b := by
  interval_cases b <;> interval_cases a <;> decide

theorem lex_append_left (l t1 t2 : List Char)
    (h : List.Lex (fun a b : Char => a < b) t1 t2) :
    List.Lex (fun a b : Char => a < b) (l ++ t1) (l ++ t2) := by
  induction l with
  | nil => exact h
  | cons a as ih => exact List.Lex.cons ih

theorem lex_append_of_len {l1 l2 : List Char}
    (h : List.Lex (fun a b : Char => a < b) l1 l2) (hlen : l1.length = l2.length)
    (t1 t2 : List Char) :
    List.Lex (fun a b : Char => a < b) (l1 ++ t1) (l2 ++ t2) := by
  revert hlen
  induction h with
  | nil =>
      intro hlen
      simp at hlen
  | cons hs ih =>
      intro hlen
      exact List.Lex.cons (ih (by simpa using hlen))
  | rel hr =>
      intro _
      exact List.Lex.rel hr

theorem pad1_lt (a b : Nat) (h : a < b) (hb : b ≤ 9) :
    List.Lex (fun a b : Char => a < b) (pad1 a) (pad1 b) := by
  have ha : a % 10 = a := Nat.mod_eq_of_lt (by omega)
  have hb10 : b % 10 = b := Nat.mod_eq_of_lt (by omega)
  simp only [pad1, ha, hb10]
  exact List.Lex.rel (digitChar_lt a b h hb)

theorem pad2_lt (a b : Nat) (h : a < b) (hb : b ≤ 99) :
    List.Lex (fun a b : Char => a < b) (pad2 a) (pad2 b) := by
  simp only [pad2]
  rcases Nat.lt_or_ge (a / 10) (b / 10) with hlt | hge
  · refine List.Lex.rel ?_
    have h1 : a / 10 % 10 = a / 10 := Nat.mod_eq_of_lt (by omega)
    have h2 : b / 10 % 10 = b / 10 := Nat.mod_eq_of_lt (by omega)
    rw [h1, h2]
    exact digitChar_lt _ _ hlt (by omega)
  · have heq : a / 10 = b / 10 := by omega
    rw [heq]
    exact List.Lex.cons (pad1_lt (a % 10) (b % 10) (by omega) (by omega))

theorem pad3_lt (a b : Nat) (h : a < b) (hb : b ≤ 999) :
    List.Lex (fun a b : Char => a < b) (pad3 a) (pad3 b) := by
  simp only [pad3]
  rcases Nat.lt_or_ge (a / 100) (b / 100) with hlt | hge
  · refine List.Lex.rel ?_
    have h1 : a / 100 % 10 = a / 100 := Nat.mod_eq_of_lt (by omega)
    have h2 : b / 100 % 10 = b / 100 := Nat.mod_eq_of_lt (by omega)
    rw [h1, h2]
    exact digitChar_lt _ _ hlt (by omega)
  · have heq : a / 100 = b / 100 := by omega
    rw [heq]
    exact List.Lex.cons (pad2_lt (a % 100) (b % 100) (by omega) (by omega))

theorem pad4_lt (a b : Nat) (h : a < b) (hb : b ≤ 9999) :
    List.Lex (fun a b : Char => a < b) (pad4 a) (pad4 b) := by
  simp only [pad4]
  rcases Nat.lt_or_ge (a / 1000) (b / 1000) with hlt | hge
  · refine List.Lex.rel ?_
    have h1 : a / 1000 % 10 = a / 1000 := Nat.mod_eq_of_lt (by omega)
    have h2 : b / 1000 % 10 = b / 1000 := Nat.mod_eq_of_lt (by omega)
    rw [h1, h2]
    exact digitChar_lt _ _ hlt (by omega)
  · have heq : a / 1000 = b / 1000 := by omega
    rw [heq]
    exact List.Lex.cons (pad3_lt (a % 1000) (b % 1000) (by omega) (by omega))

/-- the rendered character lists are lexicographically ordered whenever the
field tuples are, for fields within their rendered widths. -/
theorem renderIso_lt (y1 mo1 dy1 h1 mi1 s1 ms1 y2 mo2 dy2 h2 mi2 s2 ms2 : Nat)
    (hy2 : y2 ≤ 9999) (hmo2 : mo2 ≤ 99) (hdy2 : dy2 ≤ 99) (hh2 : h2 ≤ 99)
    (hmi2 : mi2 ≤ 99) (hs2 : s2 ≤ 99) (hms2 : ms2 ≤ 999)
    (hlex : y1 < y2 ∨ (y1 = y2 ∧ (mo1 < mo2 ∨ (mo1 = mo2 ∧ (dy1 < dy2 ∨ (dy1 = dy2 ∧
      (h1 < h2 ∨ (h1 = h2 ∧ (mi1 < mi2 ∨ (mi1 = mi2 ∧ (s1 < s2 ∨ (s1 = s2 ∧
        ms1 < ms2)))))))))))) :
    List.Lex (fun a b : Char => a < b)
      (renderIso y1 mo1 dy1 h1 mi1 s1 ms1) (renderIso y2 mo2 dy2 h2 mi2 s2 ms2) := by
  unfold renderIso
  rcases hlex with h | ⟨rfl, hlex⟩
  · exact lex_append_of_len (pad4_lt y1 y2 h hy2) rfl _ _
  · refine lex_append_left _ _ _ ?_
    rcases hlex with h | ⟨rfl, hlex⟩
    · exact List.Lex.cons (lex_append_of_len (pad2_lt mo1 mo2 h hmo2) rfl _ _)
    · refine List.Lex.cons (lex_append_left _ _ _ ?_)
      rcases hlex with h | ⟨rfl, hlex⟩
      · exact List.Lex.cons (lex_append_of_len (pad2_lt dy1 dy2 h hdy2) rfl _ _)
      · refine List.Lex.cons (lex_append_left _ _ _ ?_)
        rcases hlex with h | ⟨rfl, hlex⟩
        · exact List.Lex.cons (lex_append_of_len (pad2_lt h1 h2 h hh2) rfl _ _)
        · refine List.Lex.cons (lex_append_left _ _ _ ?_)
          rcases hlex with h | ⟨rfl, hlex⟩
          · exact List.Lex.cons (lex_append_of_len (pad2_lt mi1 mi2 h hmi2) rfl _ _)
          · refine List.Lex.cons (lex_append_left _ _ _ ?_)
            rcases hlex with h | ⟨rfl, hlex⟩
            · exact List.Lex.cons (lex_append_of_len (pad2_lt s1 s2 h hs2) rfl _ _)
            · refine List.Lex.cons (lex_append_left _ _ _ ?_)
              exact List.Lex.cons (lex_append_of_len (pad3_lt ms1 ms2 hlex hms2) rfl _ _)

/-- model of the JavaScript builtin: within the four-digit-year range the
rendered timestamps are strictly increasing in the clock value. -/
theorem toISOString_lt (t1 t2 : Nat) (h12 : t1 < t2) (hb : t2 < isoLimit) :
    toISOString t1 < toISOString t2 := by
  obtain ⟨b1, b2, b3, b4, b5, b6⟩ := isoFields_bounds t2
  have hlex := renderIso_lt (isoFields t1).1 (isoFields t1).2.1 (isoFields t1).2.2.1
    (isoFields t1).2.2.2.1 (isoFields t1).2.2.2.2.1 (isoFields t1).2.2.2.2.2.1
    (isoFields t1).2.2.2.2.2.2 (isoFields t2).1 (isoFields t2).2.1 (isoFields t2).2.2.1
    (isoFields t2).2.2.2.1 (isoFields t2).2.2.2.2.1 (isoFields t2).2.2.2.2.2.1
    (isoFields t2).2.2.2.2.2.2
    (isoFields_year_le t2 hb) b1 b2 b3 b4 b5 b6 (isoFields_lex t1 t2 h12)
  exact String.lt_iff_toList_lt.2 hlex

/-! ## C6 theorems -/

/-- no API mount matches the health path. -/
theorem mounts_none_health :
    apiPrefixList.find? (fun mnt => mountMatches mnt "/api/health") = none := by decide

/-- no page route matches the health path. -/
theorem page_none_health : findPageRoute "/api/health" = none := by decide

/-- dispatch of a clean GET /api/health hits the health check. -/
theorem dispatch_health (env : Env) (now : Nat) (req : Request)
    (hm : req.method = "GET") (hp : req.path = "/api/health")
    (hs : env.staticFiles.contains req.path = false) :
    dispatchAfterBody env now req = (healthResponse now, [Stage.staticFiles, Stage.healthCheck]) := by
  have hg : isGetLike req.method = true := by rw [hm]; rfl
  rw [hp] at hs
  simp only [dispatchAfterBody, pageDispatch, hg, hp, hs, Bool.true_and, Bool.false_eq_true,
    if_false, if_true, mounts_none_health, page_none_health]
  rfl

/-- C6 counterexample: two health calls in the same millisecond carry the
identical timestamp, so the timestamps are not strictly increasing across
successive calls. -/
theorem c6_counterexample :
    jsonField (processRequest cEnv [] 5 (cReq "GET" "/api/health")).response "timestamp" =
      jsonField (processRequest cEnv
        (processRequest cEnv [] 5 (cReq "GET" "/api/health")).limiter 5
        (cReq "GET" "/api/health")).response "timestamp" ∧
    jsonField (processRequest cEnv [] 5 (cReq "GET" "/api/health")).response "timestamp" =
      some (toISOString 5) ∧
    ¬ toISOString 5 < toISOString 5 :=
  ⟨by decide, by decide, lt_irrefl _⟩

/-- C6 (amended): a GET /api/health that passes the rate limiter and body
decoder and that no static file shadows always returns status 200 with
status field OK, the constant version 1.0.0 and a timestamp freshly rendered
from the clock value of the call; across successive calls the timestamps are
strictly increasing whenever the clock has advanced by at least one
millisecond between the calls (shown here for clock values within the
four-digit-year range), while calls within the same millisecond repeat the
identical timestamp. -/
theorem c6_health_endpoint (env : Env) (st : LimiterState) (now : Nat) (req : Request)
    (hm : req.method = "GET") (hp : req.path = "/api/health")
    (hl : (limiterCheck now st req.clientIp).1 = true)
    (hb : decodeBody req.rawBody = none)
    (hs : env.staticFiles.contains req.path = false) :
    (processRequest env st now req).response.status = 200 ∧
    jsonField (processRequest env st now req).response "status" = some "OK" ∧
    jsonField (processRequest env st now req).response "version" = some "1.0.0" ∧
    jsonField (processRequest env st now req).response "timestamp" = some (toISOString now) ∧
    (∀ t1 t2 : Nat, t1 < t2 → t2 < isoLimit → toISOString t1 < toISOString t2) := by
  rw [processRequest_forwarded env st now req hl hb, dispatch_health env now req hm hp hs]
  exact ⟨rfl, rfl, rfl, rfl, toISOString_lt⟩

/-- C6 witness: the amended theorem applied to a fresh GET /api/health at
clock value 5. -/
theorem c6_health_endpoint_witness :
    (processRequest cEnv [] 5 (cReq "GET" "/api/health")).response.status = 200 ∧
    jsonField (processRequest cEnv [] 5 (cReq "GET" "/api/health")).response "status" = some "OK" ∧
    jsonField (processRequest cEnv [] 5 (cReq "GET" "/api/health")).response "version" = some "1.0.0" ∧
    jsonField (processRequest cEnv [] 5 (cReq "GET" "/api/health")).response "timestamp" =
      some (toISOString 5) ∧
    (∀ t1 t2 : Nat, t1 < t2 → t2 < isoLimit → toISOString t1 < toISOString t2) :=
  c6_health_endpoint cEnv [] 5 (cReq "GET" "/api/health") rfl rfl (by decide) rfl rfl

/-- C9 witness: the theorem applied to a credential-free GET /admin/dashboard. -/
theorem c9_admin_dashboard_unprotected_witness :
    (processRequest cEnv [] 7 (cReq "GET" "/admin/dashboard")).response.status = 200 ∧
    (processRequest cEnv [] 7 (cReq "GET" "/admin/dashboard")).response.body = ResBody.file "admin/index.html" ∧
    (processRequest cEnv [] 7 (cReq "GET" "/admin/dashboard")).response.status ≠ 401 ∧
    (processRequest cEnv [] 7 (cReq "GET" "/admin/dashboard")).response.status ≠ 403 :=
  c9_admin_dashboard_unprotected cEnv [] 7 (cReq "GET" "/admin/dashboard") rfl rfl (by decide) rfl rfl

end ShopWeb
